import Mathlib

/-!
Shallow embedding of the notepad edit engine from this repository.

The repository has two JavaScript implementations of a function named
notepad: the full one with selection support (embedded below in namespace
Notepad) and an earlier one without selection (namespace IndexJs).
Both interpret a list of commands over a text buffer with a cursor,
recording a snapshot of the buffer after every content-changing command.

JavaScript numeric behaviour that matters here is modelled explicitly:
the cursor is a JavaScript number that is always either an integer or
NaN (NaN arises from the expression cursor - undefined when a BACKSPACE
command carries no count), and String.prototype.slice coerces NaN to 0
and interprets negative indices relative to the end of the string.
Strings are modelled as lists of characters.
-/

/-- A JavaScript number as it can occur in this program: an integer or NaN. -/
inductive JNum where
  | nan : JNum
  | int : Int → JNum
deriving DecidableEq, Repr

/-- JavaScript addition restricted to the values occurring here: NaN propagates. -/
def jadd : JNum → JNum → JNum
  | JNum.int a, JNum.int b => JNum.int (a + b)
  | _, _ => JNum.nan

/-- JavaScript subtraction: NaN propagates. -/
def jsub : JNum → JNum → JNum
  | JNum.int a, JNum.int b => JNum.int (a - b)
  | _, _ => JNum.nan

/-- JavaScript subtraction of an optional count: a missing count is
undefined, and cursor - undefined is NaN. -/
def jsubCount (a : JNum) : Option Int → JNum
  | some n => jsub a (JNum.int n)
  | none => JNum.nan

/-- Math.max(0, x): NaN propagates. -/
def jmaxZero : JNum → JNum
  | JNum.nan => JNum.nan
  | JNum.int n => JNum.int (max 0 n)

/-- JavaScript comparison a < b: any comparison with NaN is false. -/
def jlt : JNum → JNum → Bool
  | JNum.int a, JNum.int b => a < b
  | _, _ => false

/-- ToIntegerOrInfinity for the values occurring here: NaN coerces to 0. -/
def toIntJ : JNum → Int
  | JNum.nan => 0
  | JNum.int n => n

/-- Resolve one slice index against a string length, as
String.prototype.slice does: a negative index counts from the end
(clamped below at 0), a nonnegative index is clamped above at the length. -/
def jsIdx (len : Nat) (n : Int) : Nat :=
  if n < 0 then (↑len + n).toNat else min n.toNat len

/-- s.slice(a, b) on a list of characters, with JavaScript index coercion. -/
def jsSlice (s : List Char) (a b : JNum) : List Char :=
  List.drop (jsIdx s.length (toIntJ a)) (List.take (jsIdx s.length (toIntJ b)) s)

/-- s.slice(a) on a list of characters: from index a to the end. -/
def jsSliceFrom (s : List Char) (a : JNum) : List Char :=
  List.drop (jsIdx s.length (toIntJ a)) s

/-- The command tuples accepted by both notepad functions.
APPEND and INSERT carry text, MOVE an integer delta, BACKSPACE an
optional integer count (the tuple may omit it), SELECT two integers. -/
inductive Cmd where
  | append (text : List Char)
  | move (delta : Int)
  | backspace (count : Option Int)
  | insert (text : List Char)
  | select (left right : Int)
deriving DecidableEq, Repr

namespace Notepad

/-- The mutable state of the notepad function in src/unnamed/part_000:
the resultsArray of snapshots, the cursor, and the optional selection.
Selection bounds always come from clampPosition, hence are naturals. -/
structure EngineState where
  results : List (List Char)
  cursor : JNum
  selection : Option (Nat × Nat)
deriving DecidableEq, Repr

/-- resultsArray = [], cursor = 0, selection = null. -/
def initState : EngineState :=
  ⟨[], JNum.int 0, none⟩

/-- resultsArray[resultsArray.length - 1] || '' : the most recent
snapshot, or the empty string when none exists. -/
def lastResult (st : EngineState) : List Char :=
  (st.results.getLast?).getD []

/-- clampPosition(pos, textLength) = Math.max(0, Math.min(pos, textLength)). -/
def clampPosition (pos : Int) (len : Nat) : Nat :=
  (min pos (↑len)).toNat

/-- The commands skipped by the guard in src/unnamed/part_000 when no
content exists yet: everything except APPEND, INSERT and SELECT. -/
def isGuarded : Cmd → Bool
  | Cmd.move _ => true
  | Cmd.backspace _ => true
  | _ => false

/-- One iteration of the command loop of notepad in src/unnamed/part_000. -/
def step (st : EngineState) (c : Cmd) : EngineState :=
  if isGuarded c && st.results.isEmpty then st
  else
    let last := lastResult st
    match c with
    | Cmd.select l r =>
        let len := last.length
        let lc := clampPosition l len
        let rc := clampPosition r len
        if lc = rc then
          { st with selection := none, cursor := JNum.int ↑lc }
        else
          { st with selection := some (lc, rc), cursor := JNum.int ↑rc }
    | Cmd.append v =>
        match st.selection with
        | some se =>
            let newText := last.take se.1 ++ v ++ last.drop se.2
            ⟨st.results ++ [newText], JNum.int (↑se.1 + ↑v.length), none⟩
        | none =>
            let newText := last ++ v
            ⟨st.results ++ [newText], JNum.int ↑newText.length, none⟩
    | Cmd.move d =>
        let t := jadd st.cursor (JNum.int d)
        let newCursor :=
          if jlt t (JNum.int 0) then JNum.int 0
          else if jlt (JNum.int ↑last.length) t then JNum.int ↑last.length
          else t
        { st with selection := none, cursor := newCursor }
    | Cmd.backspace count =>
        match st.selection with
        | some se =>
            let newText := last.take se.1 ++ last.drop se.2
            ⟨st.results ++ [newText], JNum.int ↑se.1, none⟩
        | none =>
            let deleteStart := jmaxZero (jsubCount st.cursor count)
            let newText := jsSlice last (JNum.int 0) deleteStart ++ jsSliceFrom last st.cursor
            ⟨st.results ++ [newText], deleteStart, none⟩
    | Cmd.insert v =>
        match st.selection with
        | some se =>
            let newText := last.take se.1 ++ v ++ last.drop se.2
            ⟨st.results ++ [newText], JNum.int (↑se.1 + ↑v.length), none⟩
        | none =>
            if st.results.isEmpty then
              ⟨st.results ++ [v], JNum.int ↑v.length, none⟩
            else
              let newText := jsSlice last (JNum.int 0) st.cursor ++ v ++ jsSliceFrom last st.cursor
              ⟨st.results ++ [newText], jadd st.cursor (JNum.int ↑v.length), none⟩

/-- The state after processing a whole command list. -/
def runState (cmds : List Cmd) : EngineState :=
  cmds.foldl step initState

/-- notepad(inputCommands) from src/unnamed/part_000: the snapshot list. -/
def notepad (cmds : List Cmd) : List (List Char) :=
  (runState cmds).results

end Notepad

namespace IndexJs

/-- The mutable state of the notepad function in src/index.js:
snapshots and cursor only, no selection. -/
structure EngineState where
  results : List (List Char)
  cursor : JNum
deriving DecidableEq, Repr

/-- resultsArray = [], cursor = 0. -/
def initState : EngineState :=
  ⟨[], JNum.int 0⟩

/-- The most recent snapshot, or the empty string when none exists. -/
def lastResult (st : EngineState) : List Char :=
  (st.results.getLast?).getD []

/-- The commands skipped by the guard in src/index.js when no content
exists yet: everything except APPEND and INSERT. -/
def isGuarded : Cmd → Bool
  | Cmd.append _ => false
  | Cmd.insert _ => false
  | _ => true

/-- One iteration of the command loop of notepad in src/index.js.
A SELECT tuple falls through to the default case of the switch, which
does nothing. -/
def step (st : EngineState) (c : Cmd) : EngineState :=
  if isGuarded c && st.results.isEmpty then st
  else
    let last := lastResult st
    match c with
    | Cmd.append v =>
        ⟨st.results ++ [last ++ v], JNum.int ↑(last ++ v).length⟩
    | Cmd.move d =>
        let t := jadd st.cursor (JNum.int d)
        let newCursor :=
          if jlt t (JNum.int 0) then JNum.int 0
          else if jlt (JNum.int (↑last.length - 1)) t then JNum.int (↑last.length - 1)
          else t
        { st with cursor := newCursor }
    | Cmd.backspace count =>
        let pushMe := jsSlice last (JNum.int 0) (jsubCount st.cursor count) ++
          jsSlice last st.cursor (JNum.int ↑last.length)
        ⟨st.results ++ [pushMe], jsubCount st.cursor count⟩
    | Cmd.insert v =>
        if st.results.isEmpty then
          ⟨st.results ++ [v], JNum.int ↑v.length⟩
        else
          let newText := jsSlice last (JNum.int 0) st.cursor ++ v ++
            jsSlice last st.cursor (JNum.int ↑last.length)
          ⟨st.results ++ [newText], jadd st.cursor (JNum.int ↑v.length)⟩
    | Cmd.select _ _ => st

/-- The state after processing a whole command list. -/
def runState (cmds : List Cmd) : EngineState :=
  cmds.foldl step initState

/-- notepad(inputCommands) from src/index.js: the snapshot list. -/
def notepad (cmds : List Cmd) : List (List Char) :=
  (runState cmds).results

end IndexJs

/-- Scenario B from the repository: the selectionQueries command list. -/
def selectionQueries : List Cmd :=
  [Cmd.append "Hello World!".toList,
   Cmd.select 0 5,
   Cmd.append "Hi".toList,
   Cmd.select 3 8,
   Cmd.backspace none,
   Cmd.select 2 2,
   Cmd.insert " beautiful".toList,
   Cmd.select (-5) 100,
   Cmd.append "Greetings!".toList]

/-- Scenario A from the repository: the queries command list. -/
def queries : List Cmd :=
  [Cmd.append "Hi".toList,
   Cmd.append " there!".toList,
   Cmd.move (-600),
   Cmd.move 6,
   Cmd.backspace (some 3),
   Cmd.insert "Squa".toList]

/-- A BACKSPACE command whose count is present and nonnegative.
Negative counts push deleteStart past the cursor and omitted counts
produce a NaN cursor, so both are excluded by the amended invariant. -/
def goodCount : Cmd → Bool
  | Cmd.backspace (some n) => decide (0 ≤ n)
  | Cmd.backspace none => false
  | _ => true

/-- The cursor is an integer within the current buffer:
0 ≤ cursor ≤ length of the last snapshot (or 0 when the log is empty). -/
def cursorOk (st : Notepad.EngineState) : Bool :=
  match st.cursor with
  | JNum.nan => false
  | JNum.int n => decide (0 ≤ n ∧ n ≤ ↑(Notepad.lastResult st).length)

/-- Both selection bounds, when a selection is active, lie within the
current buffer. -/
def selOk (st : Notepad.EngineState) : Bool :=
  match st.selection with
  | none => true
  | some se =>
      decide (se.1 ≤ (Notepad.lastResult st).length ∧ se.2 ≤ (Notepad.lastResult st).length)

/-- The state invariant for the full engine: cursor and selection in bounds. -/
def invB (st : Notepad.EngineState) : Bool :=
  cursorOk st && selOk st

/-- The commands Move, Backspace and Select (the ones the guard rule covers). -/
def isMoveBackspaceSelect : Cmd → Bool
  | Cmd.move _ => true
  | Cmd.backspace _ => true
  | Cmd.select _ _ => true
  | _ => false

/-- Recognises a SELECT command. -/
def isSelectCmd : Cmd → Bool
  | Cmd.select _ _ => true
  | _ => false

/-- Recognises an APPEND or INSERT command. -/
def isAppendInsert : Cmd → Bool
  | Cmd.append _ => true
  | Cmd.insert _ => true
  | _ => false

/-- Claim C1: running the edit engine on the Scenario B command sequence
Append "Hello World!", Select 0 5, Append "Hi", Select 3 8, Backspace
(count omitted), Select 2 2, Insert " beautiful", Select -5 100,
Append "Greetings!" returns exactly the snapshot list
"Hello World!", "Hi World!", "Hi !", "Hi beautiful !", "Greetings!". -/
theorem notepad_scenarioB :
    Notepad.notepad selectionQueries =
      ["Hello World!".toList, "Hi World!".toList, "Hi !".toList,
       "Hi beautiful !".toList, "Greetings!".toList] := by
  decide

/-- Claim C2: the code does not implement a default count of 1 for
BACKSPACE with the count omitted and no selection. With buffer "ab" and
cursor 2, an omitted count yields Math.max(0, 2 - undefined) = NaN, so
the appended snapshot is "" (slice(0, NaN) is empty) and the cursor
becomes NaN, whereas Backspace(1) appends "a". This theorem evaluates
the embedded code at that failing input. -/
theorem backspace_omitted_count :
    Notepad.notepad [Cmd.append "ab".toList, Cmd.backspace none] = ["ab".toList, []] ∧
    Notepad.notepad [Cmd.append "ab".toList, Cmd.backspace (some 1)] =
      ["ab".toList, "a".toList] ∧
    (Notepad.runState [Cmd.append "ab".toList, Cmd.backspace none]).cursor = JNum.nan := by
  decide

/-- Claim C3, counterexample: after Append "ab" then Backspace with
count -1 the cursor is the integer 3 while the buffer still has length
2, so the invariant 0 ≤ cursor ≤ length(current buffer) fails. -/
theorem cursor_invariant_violated :
    cursorOk (Notepad.runState [Cmd.append "ab".toList, Cmd.backspace (some (-1))]) = false ∧
    (Notepad.runState [Cmd.append "ab".toList, Cmd.backspace (some (-1))]).cursor =
      JNum.int 3 ∧
    (Notepad.lastResult
      (Notepad.runState [Cmd.append "ab".toList, Cmd.backspace (some (-1))])).length = 2 := by
  decide

/-- Claim C6, counterexample: in the reachable state after Append "ab"
then Backspace with the count omitted, the selection is none and the
current buffer is "", yet Insert "x" followed by Backspace(1) appends
the snapshot "x", not the prior buffer "" — the cursor in that state is
NaN, so the backspace deletes nothing. -/
theorem roundtrip_violated :
    (Notepad.runState [Cmd.append "ab".toList, Cmd.backspace none]).selection = none ∧
    Notepad.lastResult (Notepad.runState [Cmd.append "ab".toList, Cmd.backspace none]) = [] ∧
    Notepad.lastResult
      (Notepad.step
        (Notepad.step (Notepad.runState [Cmd.append "ab".toList, Cmd.backspace none])
          (Cmd.insert "x".toList))
        (Cmd.backspace (some 1))) = "x".toList := by
  decide

/-- Claim C10, counterexample: on the SELECT-free command sequence
Append "ab", Move 0, Insert "x" the two implementations disagree:
src/unnamed/part_000 clamps the cursor to the buffer length and returns
["ab", "abx"], while src/index.js clamps it to length - 1 and returns
["ab", "axb"]. -/
theorem notepad_implementations_differ :
    ([Cmd.append "ab".toList, Cmd.move 0, Cmd.insert "x".toList].all
      (fun c => !isSelectCmd c)) = true ∧
    Notepad.notepad [Cmd.append "ab".toList, Cmd.move 0, Cmd.insert "x".toList] ≠
      IndexJs.notepad [Cmd.append "ab".toList, Cmd.move 0, Cmd.insert "x".toList] := by
  decide

lemma lastResult_concat (rs : List (List Char)) (t : List Char) (cur : JNum)
    (sel : Option (Nat × Nat)) :
    Notepad.lastResult ⟨rs ++ [t], cur, sel⟩ = t := by
  simp [Notepad.lastResult, List.getLast?_concat]

lemma jsIdx_le (len : Nat) (n : Int) : jsIdx len n ≤ len := by
  unfold jsIdx
  split <;> omega

lemma jsIdx_int_cast (len : Nat) (n : Int) (h0 : 0 ≤ n) (h1 : n ≤ ↑len) :
    (↑(jsIdx len n) : Int) = n := by
  unfold jsIdx
  split <;> omega

lemma length_jsSlice_zero (s : List Char) (b : JNum) :
    (jsSlice s (JNum.int 0) b).length = jsIdx s.length (toIntJ b) := by
  have h0 : jsIdx s.length (toIntJ (JNum.int 0)) = 0 := by
    simp [jsIdx, toIntJ]
  simp [jsSlice, h0, Nat.min_eq_left (jsIdx_le s.length (toIntJ b))]

lemma length_jsSliceFrom (s : List Char) (a : JNum) :
    (jsSliceFrom s a).length = s.length - jsIdx s.length (toIntJ a) := by
  simp [jsSliceFrom]

lemma jsSlice_to_length (s : List Char) (a : JNum) :
    jsSlice s a (JNum.int ↑s.length) = jsSliceFrom s a := by
  have h : jsIdx s.length (toIntJ (JNum.int ↑s.length)) = s.length := by
    simp only [toIntJ]
    unfold jsIdx
    split <;> omega
  simp [jsSlice, jsSliceFrom, h]

lemma step_results_cases (st : Notepad.EngineState) (c : Cmd) :
    (Notepad.step st c).results = st.results ∨
    ∃ t, (Notepad.step st c).results = st.results ++ [t] := by
  unfold Notepad.step
  split
  · exact Or.inl rfl
  · cases c with
    | select l r =>
        dsimp only
        split <;> exact Or.inl rfl
    | append v =>
        dsimp only
        cases st.selection <;> exact Or.inr ⟨_, rfl⟩
    | move d => exact Or.inl rfl
    | backspace k =>
        dsimp only
        cases st.selection <;> exact Or.inr ⟨_, rfl⟩
    | insert v =>
        dsimp only
        cases st.selection
        · dsimp only
          split <;> exact Or.inr ⟨_, rfl⟩
        · exact Or.inr ⟨_, rfl⟩

lemma step_results_ne_nil {st : Notepad.EngineState} (c : Cmd) (h : st.results ≠ []) :
    (Notepad.step st c).results ≠ [] := by
  rcases step_results_cases st c with h1 | ⟨t, h1⟩ <;> rw [h1] <;> simp [h]

lemma step_results_length (st : Notepad.EngineState) (c : Cmd) :
    (Notepad.step st c).results.length ≤ st.results.length + 1 := by
  rcases step_results_cases st c with h1 | ⟨t, h1⟩ <;> rw [h1] <;> simp

/-- Claim C7: for every state, Move(0) leaves the snapshot list — and
hence the buffer content — unchanged, and appends no snapshot. -/
theorem move_zero_results (st : Notepad.EngineState) :
    (Notepad.step st (Cmd.move 0)).results = st.results ∧
    Notepad.lastResult (Notepad.step st (Cmd.move 0)) = Notepad.lastResult st := by
  by_cases h : st.results.isEmpty <;>
    simp [Notepad.step, Notepad.isGuarded, h, Notepad.lastResult]

/-- Claim C9: the run function is total — on every finite command list
it evaluates to a snapshot list (there is no failure case in its type,
all numeric inputs being handled by clamping), and that list is finite,
holding at most one snapshot per input command. -/
theorem run_total (cmds : List Cmd) :
    ∃ snaps : List (List Char), Notepad.notepad cmds = snaps ∧ snaps.length ≤ cmds.length := by
  refine ⟨Notepad.notepad cmds, rfl, ?_⟩
  unfold Notepad.notepad Notepad.runState
  suffices h : ∀ (l : List Cmd) (st : Notepad.EngineState),
      (List.foldl Notepad.step st l).results.length ≤ st.results.length + l.length by
    simpa [Notepad.initState] using h cmds Notepad.initState
  intro l
  induction l with
  | nil => intro st; simp
  | cons c cs ih =>
      intro st
      have h1 := ih (Notepad.step st c)
      have h2 := step_results_length st c
      simp only [List.foldl_cons, List.length_cons]
      omega

lemma step_initState_of_results_nil (c : Cmd)
    (h : (Notepad.step Notepad.initState c).results = []) :
    Notepad.step Notepad.initState c = Notepad.initState := by
  cases c with
  | move d => rfl
  | backspace k => rfl
  | append v => simp [Notepad.step, Notepad.isGuarded, Notepad.initState] at h
  | insert v => simp [Notepad.step, Notepad.isGuarded, Notepad.initState] at h
  | select l r =>
      have hl : Notepad.clampPosition l 0 = 0 := by
        unfold Notepad.clampPosition
        omega
      have hr : Notepad.clampPosition r 0 = 0 := by
        unfold Notepad.clampPosition
        omega
      simp [Notepad.step, Notepad.isGuarded, Notepad.lastResult, Notepad.initState, hl, hr]

lemma runState_empty (cmds : List Cmd) (h : (Notepad.runState cmds).results = []) :
    Notepad.runState cmds = Notepad.initState := by
  suffices aux : ∀ (l : List Cmd) (st : Notepad.EngineState),
      (st.results = [] → st = Notepad.initState) →
      ((List.foldl Notepad.step st l).results = [] →
        List.foldl Notepad.step st l = Notepad.initState) by
    exact aux cmds Notepad.initState (fun _ => rfl) h
  intro l
  induction l with
  | nil => intro st hst; exact hst
  | cons c cs ih =>
      intro st hst
      apply ih
      intro hstep
      by_cases hres : st.results = []
      · rw [hst hres] at hstep ⊢
        exact step_initState_of_results_nil c hstep
      · exact absurd hstep (step_results_ne_nil c hres)

/-- Claim C5: whenever the snapshot log is empty, a Move, Backspace or
Select command is a no-op — it appends no snapshot and leaves buffer
content, cursor and selection unchanged. Move and Backspace are skipped
by the guard; Select executes, but in the only states with an empty log
(cursor 0, no selection, empty buffer) it clamps both bounds to 0 and
reproduces exactly that state. -/
theorem empty_log_noop (cmds : List Cmd) (c : Cmd)
    (h1 : isMoveBackspaceSelect c = true)
    (h2 : (Notepad.runState cmds).results = []) :
    Notepad.step (Notepad.runState cmds) c = Notepad.runState cmds := by
  rw [runState_empty cmds h2]
  cases c with
  | move d => rfl
  | backspace k => rfl
  | append v => simp [isMoveBackspaceSelect] at h1
  | insert v => simp [isMoveBackspaceSelect] at h1
  | select l r =>
      have hl : Notepad.clampPosition l 0 = 0 := by
        unfold Notepad.clampPosition
        omega
      have hr : Notepad.clampPosition r 0 = 0 := by
        unfold Notepad.clampPosition
        omega
      simp [Notepad.step, Notepad.isGuarded, Notepad.lastResult, Notepad.initState, hl, hr]

/-- Witness for claim C5 at a concrete input: after the skipped command
Move 1 the log is still empty, and Select 0 0 is then a no-op. -/
theorem empty_log_noop_witness :
    isMoveBackspaceSelect (Cmd.select 0 0) = true ∧
    (Notepad.runState [Cmd.move 1]).results = [] ∧
    Notepad.step (Notepad.runState [Cmd.move 1]) (Cmd.select 0 0) =
      Notepad.runState [Cmd.move 1] :=
  ⟨by decide, by decide, empty_log_noop [Cmd.move 1] (Cmd.select 0 0) (by decide) (by decide)⟩

/-- Claim C8: only Select can leave the engine with an active selection.
After executing any non-Select command from any reachable state the
selection is none: every content command and Move clear the selection,
and the guard only skips commands in states whose selection is already
none. -/
theorem non_select_clears_selection (cmds : List Cmd) (c : Cmd)
    (h : isSelectCmd c = false) :
    (Notepad.step (Notepad.runState cmds) c).selection = none := by
  by_cases hres : (Notepad.runState cmds).results = []
  · rw [runState_empty cmds hres]
    cases c with
    | move d => rfl
    | backspace k => rfl
    | append v => rfl
    | insert v => rfl
    | select l r => simp [isSelectCmd] at h
  · have hne : (Notepad.runState cmds).results.isEmpty = false := by
      simpa [List.isEmpty_iff] using hres
    cases c with
    | select l r => simp [isSelectCmd] at h
    | move d => simp [Notepad.step, Notepad.isGuarded, hne]
    | append v =>
        cases hsel : (Notepad.runState cmds).selection <;>
          simp [Notepad.step, Notepad.isGuarded, hne, hsel]
    | backspace k =>
        cases hsel : (Notepad.runState cmds).selection <;>
          simp [Notepad.step, Notepad.isGuarded, hne, hsel]
    | insert v =>
        cases hsel : (Notepad.runState cmds).selection <;>
          simp [Notepad.step, Notepad.isGuarded, hne, hsel]

/-- Witness for claim C8 at a concrete input: a Backspace executed in a
state with an active selection (after Append "Hello World!" and
Select 0 5) leaves no selection behind. -/
theorem non_select_clears_selection_witness :
    isSelectCmd (Cmd.backspace none) = false ∧
    (Notepad.step
      (Notepad.runState [Cmd.append "Hello World!".toList, Cmd.select 0 5])
      (Cmd.backspace none)).selection = none :=
  ⟨by decide,
   non_select_clears_selection [Cmd.append "Hello World!".toList, Cmd.select 0 5]
     (Cmd.backspace none) (by decide)⟩

/-- Claim C4: for Select(left, right) with left ≤ right, both bounds are
clamped independently into [0, length(current)]; equal clamped values
give no selection with the cursor there, distinct clamped values give
Selection = (clamped left, clamped right) with clamped left ≤ clamped
right ≤ length and the cursor at the clamped right bound; no snapshot is
appended; and when both bounds lie beyond the buffer length the
selection is none with the cursor at the end of the buffer. -/
theorem select_clamps (st : Notepad.EngineState) (l r : Int) (h : l ≤ r) :
    (Notepad.step st (Cmd.select l r)).results = st.results ∧
    Notepad.clampPosition l (Notepad.lastResult st).length ≤
      Notepad.clampPosition r (Notepad.lastResult st).length ∧
    Notepad.clampPosition r (Notepad.lastResult st).length ≤
      (Notepad.lastResult st).length ∧
    (Notepad.clampPosition l (Notepad.lastResult st).length =
        Notepad.clampPosition r (Notepad.lastResult st).length →
      (Notepad.step st (Cmd.select l r)).selection = none ∧
      (Notepad.step st (Cmd.select l r)).cursor =
        JNum.int ↑(Notepad.clampPosition l (Notepad.lastResult st).length)) ∧
    (Notepad.clampPosition l (Notepad.lastResult st).length ≠
        Notepad.clampPosition r (Notepad.lastResult st).length →
      (Notepad.step st (Cmd.select l r)).selection =
        some (Notepad.clampPosition l (Notepad.lastResult st).length,
          Notepad.clampPosition r (Notepad.lastResult st).length) ∧
      (Notepad.step st (Cmd.select l r)).cursor =
        JNum.int ↑(Notepad.clampPosition r (Notepad.lastResult st).length)) ∧
    ((↑(Notepad.lastResult st).length : Int) < l →
      (Notepad.step st (Cmd.select l r)).selection = none ∧
      (Notepad.step st (Cmd.select l r)).cursor =
        JNum.int ↑(Notepad.lastResult st).length) := by
  have hmono : Notepad.clampPosition l (Notepad.lastResult st).length ≤
      Notepad.clampPosition r (Notepad.lastResult st).length := by
    unfold Notepad.clampPosition
    omega
  have hle : Notepad.clampPosition r (Notepad.lastResult st).length ≤
      (Notepad.lastResult st).length := by
    unfold Notepad.clampPosition
    omega
  by_cases hEq : Notepad.clampPosition l (Notepad.lastResult st).length =
      Notepad.clampPosition r (Notepad.lastResult st).length
  · refine ⟨?_, hmono, hle, fun _ => ?_, fun hne => absurd hEq hne, fun hbig => ?_⟩
    · simp [Notepad.step, Notepad.isGuarded, hEq]
    · constructor <;> simp [Notepad.step, Notepad.isGuarded, hEq]
    · have hcl : Notepad.clampPosition l (Notepad.lastResult st).length =
          (Notepad.lastResult st).length := by
        unfold Notepad.clampPosition
        omega
      have hcr : Notepad.clampPosition r (Notepad.lastResult st).length =
          (Notepad.lastResult st).length := by
        unfold Notepad.clampPosition
        omega
      constructor <;> simp [Notepad.step, Notepad.isGuarded, hEq, hcl, hcr]
  · refine ⟨?_, hmono, hle, fun he => absurd he hEq, fun _ => ?_, fun hbig => ?_⟩
    · simp [Notepad.step, Notepad.isGuarded, hEq]
    · constructor <;> simp [Notepad.step, Notepad.isGuarded, hEq]
    · exfalso
      apply hEq
      have hcl : Notepad.clampPosition l (Notepad.lastResult st).length =
          (Notepad.lastResult st).length := by
        unfold Notepad.clampPosition
        omega
      have hcr : Notepad.clampPosition r (Notepad.lastResult st).length =
          (Notepad.lastResult st).length := by
        unfold Notepad.clampPosition
        omega
      rw [hcl, hcr]

/-- Witness for claim C4 at a concrete input: Select 0 1 from the
initial state (empty buffer), where 0 ≤ 1 and both bounds clamp to 0. -/
theorem select_clamps_witness :
    (0 : Int) ≤ 1 ∧
    ((Notepad.step Notepad.initState (Cmd.select 0 1)).results =
        Notepad.initState.results ∧
      Notepad.clampPosition 0 (Notepad.lastResult Notepad.initState).length ≤
        Notepad.clampPosition 1 (Notepad.lastResult Notepad.initState).length ∧
      Notepad.clampPosition 1 (Notepad.lastResult Notepad.initState).length ≤
        (Notepad.lastResult Notepad.initState).length ∧
      (Notepad.clampPosition 0 (Notepad.lastResult Notepad.initState).length =
          Notepad.clampPosition 1 (Notepad.lastResult Notepad.initState).length →
        (Notepad.step Notepad.initState (Cmd.select 0 1)).selection = none ∧
        (Notepad.step Notepad.initState (Cmd.select 0 1)).cursor =
          JNum.int ↑(Notepad.clampPosition 0 (Notepad.lastResult Notepad.initState).length)) ∧
      (Notepad.clampPosition 0 (Notepad.lastResult Notepad.initState).length ≠
          Notepad.clampPosition 1 (Notepad.lastResult Notepad.initState).length →
        (Notepad.step Notepad.initState (Cmd.select 0 1)).selection =
          some (Notepad.clampPosition 0 (Notepad.lastResult Notepad.initState).length,
            Notepad.clampPosition 1 (Notepad.lastResult Notepad.initState).length) ∧
        (Notepad.step Notepad.initState (Cmd.select 0 1)).cursor =
          JNum.int ↑(Notepad.clampPosition 1 (Notepad.lastResult Notepad.initState).length)) ∧
      ((↑(Notepad.lastResult Notepad.initState).length : Int) < 0 →
        (Notepad.step Notepad.initState (Cmd.select 0 1)).selection = none ∧
        (Notepad.step Notepad.initState (Cmd.select 0 1)).cursor =
          JNum.int ↑(Notepad.lastResult Notepad.initState).length)) :=
  ⟨by decide, select_clamps Notepad.initState 0 1 (by decide)⟩

lemma invB_step (st : Notepad.EngineState) (c : Cmd)
    (h : invB st = true) (hc : goodCount c = true) :
    invB (Notepad.step st c) = true := by
  by_cases hg : (Notepad.isGuarded c && st.results.isEmpty) = true
  · unfold Notepad.step
    rw [if_pos hg]
    exact h
  · rw [invB, Bool.and_eq_true] at h
    obtain ⟨hcur, hsel⟩ := h
    unfold Notepad.step
    rw [if_neg hg]
    cases c with
    | select l r =>
        dsimp only
        by_cases hEq : Notepad.clampPosition l (Notepad.lastResult st).length =
            Notepad.clampPosition r (Notepad.lastResult st).length
        · rw [if_pos hEq]
          simp only [invB, cursorOk, selOk, Bool.and_eq_true, decide_eq_true_eq,
            Notepad.lastResult]
          unfold Notepad.clampPosition
          constructor
          · omega
          · trivial
        · rw [if_neg hEq]
          simp only [invB, cursorOk, selOk, Bool.and_eq_true, decide_eq_true_eq,
            Notepad.lastResult]
          unfold Notepad.clampPosition
          constructor
          · omega
          · omega
    | append v =>
        dsimp only
        cases hs0 : st.selection with
        | none =>
            simp only [invB, cursorOk, selOk, Bool.and_eq_true, decide_eq_true_eq,
              lastResult_concat, List.length_append]
            refine ⟨?_, trivial⟩
            omega
        | some se =>
            rw [selOk, hs0] at hsel
            rw [decide_eq_true_eq] at hsel
            simp only [invB, cursorOk, selOk, Bool.and_eq_true, decide_eq_true_eq,
              lastResult_concat, List.length_append, List.length_take, List.length_drop]
            refine ⟨?_, trivial⟩
            omega
    | move d =>
        dsimp only
        cases hc0 : st.cursor with
        | nan => simp [cursorOk, hc0] at hcur
        | int n =>
            rw [cursorOk, hc0] at hcur
            rw [decide_eq_true_eq] at hcur
            simp only [Notepad.lastResult] at hcur
            simp only [jadd, jlt, Notepad.lastResult]
            by_cases h1 : n + d < 0
            · rw [if_pos (by simpa using h1)]
              simp only [invB, cursorOk, selOk, Bool.and_eq_true, decide_eq_true_eq,
                Notepad.lastResult]
              constructor
              · omega
              · trivial
            · rw [if_neg (by simpa using h1)]
              by_cases h2 : (↑(st.results.getLast?.getD []).length : Int) < n + d
              · rw [if_pos (by simpa using h2)]
                simp only [invB, cursorOk, selOk, Bool.and_eq_true, decide_eq_true_eq,
                  Notepad.lastResult]
                constructor
                · omega
                · trivial
              · rw [if_neg (by simpa using h2)]
                simp only [invB, cursorOk, selOk, Bool.and_eq_true, decide_eq_true_eq,
                  Notepad.lastResult]
                constructor
                · omega
                · trivial
    | backspace k =>
        dsimp only
        cases hs0 : st.selection with
        | some se =>
            rw [selOk, hs0] at hsel
            rw [decide_eq_true_eq] at hsel
            simp only [invB, cursorOk, selOk, Bool.and_eq_true, decide_eq_true_eq,
              lastResult_concat, List.length_append, List.length_take, List.length_drop]
            refine ⟨?_, trivial⟩
            omega
        | none =>
            cases k with
            | none => simp [goodCount] at hc
            | some kk =>
                rw [goodCount] at hc
                rw [decide_eq_true_eq] at hc
                cases hc0 : st.cursor with
                | nan => simp [cursorOk, hc0] at hcur
                | int n =>
                    rw [cursorOk, hc0] at hcur
                    rw [decide_eq_true_eq] at hcur
                    simp only [jsubCount, jsub, jmaxZero, invB, cursorOk, selOk,
                      Bool.and_eq_true, decide_eq_true_eq, lastResult_concat,
                      List.length_append, length_jsSlice_zero, length_jsSliceFrom, toIntJ]
                    constructor
                    · unfold jsIdx
                      split
                      · omega
                      · split
                        · omega
                        · omega
                    · trivial
    | insert v =>
        dsimp only
        cases hs0 : st.selection with
        | some se =>
            rw [selOk, hs0] at hsel
            rw [decide_eq_true_eq] at hsel
            simp only [invB, cursorOk, selOk, Bool.and_eq_true, decide_eq_true_eq,
              lastResult_concat, List.length_append, List.length_take, List.length_drop]
            refine ⟨?_, trivial⟩
            omega
        | none =>
            by_cases hE : st.results.isEmpty = true
            · rw [if_pos hE]
              simp only [invB, cursorOk, selOk, Bool.and_eq_true, decide_eq_true_eq,
                lastResult_concat]
              refine ⟨?_, trivial⟩
              omega
            · rw [if_neg hE]
              cases hc0 : st.cursor with
              | nan => simp [cursorOk, hc0] at hcur
              | int n =>
                  rw [cursorOk, hc0] at hcur
                  rw [decide_eq_true_eq] at hcur
                  simp only [jadd, invB, cursorOk, selOk, Bool.and_eq_true,
                    decide_eq_true_eq, lastResult_concat, List.length_append,
                    length_jsSlice_zero, length_jsSliceFrom, toIntJ]
                  constructor
                  · unfold jsIdx
                    split
                    · omega
                    · omega
                  · trivial

lemma invB_foldl (l : List Cmd) :
    ∀ st : Notepad.EngineState, invB st = true →
      (∀ c ∈ l, goodCount c = true) →
      invB (List.foldl Notepad.step st l) = true := by
  induction l with
  | nil => intro st h _; exact h
  | cons c cs ih =>
      intro st h hgood
      simp only [List.foldl_cons]
      exact ih (Notepad.step st c) (invB_step st c h (hgood c (List.mem_cons_self c cs)))
        (fun x hx => hgood x (List.mem_cons_of_mem c hx))

/-- Claim C3, amended: for every command sequence in which each
Backspace carries an explicit nonnegative count (Move deltas and Select
bounds still arbitrary), the invariant 0 ≤ cursor ≤ length(current
buffer) holds after processing each command, the current buffer being
the last snapshot or "" for an empty log. Negative Backspace counts
push the cursor past the buffer end and omitted counts make it NaN, so
those are excluded. -/
theorem cursor_invariant (cmds : List Cmd)
    (h : ∀ c ∈ cmds, goodCount c = true) (i : Nat) :
    cursorOk (Notepad.runState (List.take i cmds)) = true := by
  have hgood : ∀ c ∈ List.take i cmds, goodCount c = true :=
    fun c hc => h c (List.take_subset i cmds hc)
  have hinv := invB_foldl (List.take i cmds) Notepad.initState (by decide) hgood
  rw [invB, Bool.and_eq_true] at hinv
  exact hinv.1

/-- Witness for claim C3 at a concrete input: Scenario A, whose only
Backspace carries the nonnegative count 3, after its first 5 commands. -/
theorem cursor_invariant_witness :
    (∀ c ∈ queries, goodCount c = true) ∧
    cursorOk (Notepad.runState (List.take 5 queries)) = true :=
  ⟨by decide, cursor_invariant queries (by decide) 5⟩

lemma roundtrip_core (rs : List (List Char)) (s : List Char) (n : Int)
    (hne : rs.isEmpty = false) (hn0 : 0 ≤ n)
    (hnL : n ≤ ↑(rs.getLast?.getD []).length) :
    Notepad.step (Notepad.step ⟨rs, JNum.int n, none⟩ (Cmd.insert s))
        (Cmd.backspace (some ↑s.length)) =
      ⟨(Notepad.step ⟨rs, JNum.int n, none⟩ (Cmd.insert s)).results ++
        [rs.getLast?.getD []], JNum.int n, none⟩ := by
  set C := rs.getLast?.getD [] with hC
  set k := jsIdx C.length n with hk
  have hkL : k ≤ C.length := jsIdx_le C.length n
  have hkc : (↑k : Int) = n := jsIdx_int_cast C.length n hn0 hnL
  have hidx0 : jsIdx C.length (0 : Int) = 0 := by
    unfold jsIdx
    split <;> omega
  have h1 : Notepad.step ⟨rs, JNum.int n, none⟩ (Cmd.insert s) =
      ⟨rs ++ [jsSlice C (JNum.int 0) (JNum.int n) ++ s ++ jsSliceFrom C (JNum.int n)],
       JNum.int (n + ↑s.length), none⟩ := by
    simp [Notepad.step, Notepad.isGuarded, Notepad.lastResult, hne, jadd, hC]
  rw [h1]
  set T := jsSlice C (JNum.int 0) (JNum.int n) ++ s ++ jsSliceFrom C (JNum.int n) with hT
  have hTshape : T = List.take k C ++ s ++ List.drop k C := by
    rw [hT]
    simp [jsSlice, jsSliceFrom, toIntJ, hidx0, hk]
  have htakelen : (List.take k C).length = k := by
    simp [List.length_take]
    omega
  have hTlen : T.length = k + s.length + (C.length - k) := by
    rw [hTshape]
    simp [List.length_append, htakelen, List.length_drop]
    omega
  have hmax : max (0 : Int) n = n := max_eq_right hn0
  have h2 : Notepad.step ⟨rs ++ [T], JNum.int (n + ↑s.length), none⟩
      (Cmd.backspace (some ↑s.length)) =
      ⟨(rs ++ [T]) ++
        [jsSlice T (JNum.int 0) (JNum.int n) ++ jsSliceFrom T (JNum.int (n + ↑s.length))],
       JNum.int n, none⟩ := by
    simp [Notepad.step, Notepad.isGuarded, Notepad.lastResult, List.getLast?_concat,
      jsubCount, jsub, jmaxZero, hmax]
  rw [h2]
  have hik : jsIdx T.length n = k := by
    have h3 := jsIdx_int_cast T.length n hn0 (by omega)
    omega
  have hik2 : jsIdx T.length (n + ↑s.length) = k + s.length := by
    have h3 := jsIdx_int_cast T.length (n + ↑s.length) (by omega) (by omega)
    omega
  have hidx0T : jsIdx T.length (0 : Int) = 0 := by
    unfold jsIdx
    split <;> omega
  have hslice1 : jsSlice T (JNum.int 0) (JNum.int n) = List.take k C := by
    simp only [jsSlice, toIntJ, hidx0T, hik, List.drop_zero]
    rw [hTshape, List.append_assoc]
    exact List.take_left' htakelen
  have hslice2 : jsSliceFrom T (JNum.int (n + ↑s.length)) = List.drop k C := by
    simp only [jsSliceFrom, toIntJ, hik2]
    rw [hTshape]
    refine List.drop_left' ?_
    simp [List.length_append, htakelen]
  rw [hslice1, hslice2, List.take_append_drop]

/-- Claim C6, amended: for every state with no active selection whose
cursor is an integer n with 0 ≤ n ≤ length(current buffer) — the
invariant the specification asserts of all reachable states — executing
Insert(s) immediately followed by Backspace(length(s)) restores the
prior buffer content: the snapshot appended by the Backspace equals the
buffer value current before the Insert. States whose cursor is NaN or
beyond the buffer (reachable via omitted or negative Backspace counts)
are excluded. -/
theorem insert_backspace_roundtrip (st : Notepad.EngineState) (s : List Char)
    (hsel : st.selection = none) (hcur : cursorOk st = true) :
    Notepad.lastResult
        (Notepad.step (Notepad.step st (Cmd.insert s))
          (Cmd.backspace (some ↑s.length))) = Notepad.lastResult st ∧
    (Notepad.step (Notepad.step st (Cmd.insert s))
        (Cmd.backspace (some ↑s.length))).results =
      (Notepad.step st (Cmd.insert s)).results ++ [Notepad.lastResult st] := by
  obtain ⟨rs, cursor, sel⟩ := st
  dsimp only at hsel
  subst hsel
  cases hc0 : cursor with
  | nan =>
      rw [hc0] at hcur
      simp [cursorOk] at hcur
  | int n =>
      rw [hc0] at hcur
      rw [cursorOk] at hcur
      rw [decide_eq_true_eq] at hcur
      obtain ⟨hn0, hnL⟩ := hcur
      by_cases hE : rs.isEmpty = true
      · have hnil : rs = [] := List.isEmpty_iff.mp hE
        subst hnil
        have hidxs : jsIdx s.length (↑s.length : Int) = s.length := by
          unfold jsIdx
          split <;> omega
        have hidx0 : jsIdx s.length (0 : Int) = 0 := by
          unfold jsIdx
          split <;> omega
        constructor <;>
          simp [Notepad.step, Notepad.isGuarded, Notepad.lastResult,
            List.getLast?_concat, jsubCount, jsub, jmaxZero, jsSlice, jsSliceFrom,
            toIntJ, hidxs, hidx0]
      · have hne : rs.isEmpty = false := Bool.eq_false_iff.mpr hE
        have hlastst : Notepad.lastResult ⟨rs, JNum.int n, none⟩ =
            rs.getLast?.getD [] := rfl
        have hcore := roundtrip_core rs s n hne hn0 (by
          rw [Notepad.lastResult] at hnL
          exact hnL)
        rw [hcore, hlastst]
        constructor
        · exact lastResult_concat _ _ _ _
        · rfl

/-- Witness for claim C6 at a concrete input: the state after
Append "Hi" (no selection, cursor 2 = buffer length) with s = "ab". -/
theorem insert_backspace_roundtrip_witness :
    (Notepad.runState [Cmd.append "Hi".toList]).selection = none ∧
    cursorOk (Notepad.runState [Cmd.append "Hi".toList]) = true ∧
    (Notepad.lastResult
        (Notepad.step
          (Notepad.step (Notepad.runState [Cmd.append "Hi".toList])
            (Cmd.insert "ab".toList))
          (Cmd.backspace (some ↑("ab".toList).length))) =
      Notepad.lastResult (Notepad.runState [Cmd.append "Hi".toList]) ∧
    (Notepad.step
        (Notepad.step (Notepad.runState [Cmd.append "Hi".toList])
          (Cmd.insert "ab".toList))
        (Cmd.backspace (some ↑("ab".toList).length))).results =
      (Notepad.step (Notepad.runState [Cmd.append "Hi".toList])
          (Cmd.insert "ab".toList)).results ++
        [Notepad.lastResult (Notepad.runState [Cmd.append "Hi".toList])]) :=
  ⟨by decide, by decide,
   insert_backspace_roundtrip (Notepad.runState [Cmd.append "Hi".toList])
     "ab".toList (by decide) (by decide)⟩

lemma agree_aux (l : List Cmd) :
    ∀ (st1 : Notepad.EngineState) (st2 : IndexJs.EngineState),
      st1.results = st2.results → st1.cursor = st2.cursor → st1.selection = none →
      (∀ c ∈ l, isAppendInsert c = true) →
      (List.foldl Notepad.step st1 l).results = (List.foldl IndexJs.step st2 l).results := by
  induction l with
  | nil => intro st1 st2 h1 _ _ _; exact h1
  | cons c cs ih =>
      intro st1 st2 h1 h2 h3 hgood
      simp only [List.foldl_cons]
      have hc := hgood c (List.mem_cons_self c cs)
      have hrest : ∀ x ∈ cs, isAppendInsert x = true :=
        fun x hx => hgood x (List.mem_cons_of_mem c hx)
      cases c with
      | move d => simp [isAppendInsert] at hc
      | backspace k => simp [isAppendInsert] at hc
      | select a b => simp [isAppendInsert] at hc
      | append v =>
          apply ih
          · simp [Notepad.step, IndexJs.step, Notepad.isGuarded, IndexJs.isGuarded,
              Notepad.lastResult, IndexJs.lastResult, h1, h3]
          · simp [Notepad.step, IndexJs.step, Notepad.isGuarded, IndexJs.isGuarded,
              Notepad.lastResult, IndexJs.lastResult, h1, h3]
          · simp [Notepad.step, Notepad.isGuarded, h3]
          · exact hrest
      | insert v =>
          apply ih
          · by_cases hE : st2.results = [] <;>
              simp [Notepad.step, IndexJs.step, Notepad.isGuarded, IndexJs.isGuarded,
                Notepad.lastResult, IndexJs.lastResult, h1, h2, h3, jsSlice_to_length, hE]
          · by_cases hE : st2.results = [] <;>
              simp [Notepad.step, IndexJs.step, Notepad.isGuarded, IndexJs.isGuarded,
                Notepad.lastResult, IndexJs.lastResult, h1, h2, h3, jsSlice_to_length, hE]
          · by_cases hE : st2.results = [] <;>
              simp [Notepad.step, Notepad.isGuarded, Notepad.lastResult, h1, h3, hE]
          · exact hrest

/-- Claim C10, amended: on every command sequence containing only
APPEND and INSERT commands, the notepad function of src/index.js and
the notepad function of src/unnamed/part_000 return identical snapshot
lists. MOVE must be excluded because index.js clamps the cursor to
length - 1 where part_000 clamps to length, and BACKSPACE because
index.js neither clamps the deletion start at 0 nor the cursor, so both
commands can drive the two implementations to different snapshots. -/
theorem notepad_agree_append_insert (cmds : List Cmd)
    (h : ∀ c ∈ cmds, isAppendInsert c = true) :
    Notepad.notepad cmds = IndexJs.notepad cmds := by
  unfold Notepad.notepad IndexJs.notepad Notepad.runState IndexJs.runState
  exact agree_aux cmds Notepad.initState IndexJs.initState rfl rfl rfl h

/-- Witness for claim C10 (amended) at a concrete input: an APPEND
followed by an INSERT give the same snapshots in both implementations. -/
theorem notepad_agree_append_insert_witness :
    (∀ c ∈ [Cmd.append "Hi".toList, Cmd.insert "ab".toList], isAppendInsert c = true) ∧
    Notepad.notepad [Cmd.append "Hi".toList, Cmd.insert "ab".toList] =
      IndexJs.notepad [Cmd.append "Hi".toList, Cmd.insert "ab".toList] :=
  ⟨by decide, notepad_agree_append_insert _ (by decide)⟩
